import Mathlib

/-!
Verification of the `github:actions:dispatch` scaffolder action
(`plugins/scaffolder-backend/src/scaffolder/actions/builtin/github/githubActionsDispatch.ts`).

The handler is embedded as a pure function from its input, the action
options, the external repo-URL parser and an oracle describing the
outcome of each network attempt, to an event trace (log entries, the
client-option resolution call, client construction, the dispatch call)
together with the handler's result.  External collaborators
(`parseRepoUrl`, `getOctokitOptions`, the HTTP transport) are taken as
oracle parameters; the throttle predicates and the handler's control
flow are translated from the source.
-/

namespace GithubActionsDispatch

/-- Opaque stand-in for the `ScmIntegrations` value captured by the action. -/
structure ScmIntegrations where
  id : Nat
deriving DecidableEq, Repr

/-- Opaque stand-in for a `GithubCredentialsProvider` value. -/
structure GithubCredentialsProvider where
  id : Nat
deriving DecidableEq, Repr

/-- The options captured by `createGithubActionsDispatchAction`. -/
structure ActionOptions where
  integrations : ScmIntegrations
  githubCredentialsProvider : Option GithubCredentialsProvider
deriving DecidableEq, Repr

/-- The handler's validated input (`ctx.input`). -/
structure HandlerInput where
  repoUrl : String
  workflowId : String
  branchOrTagName : String
  workflowInputs : Option (List (String × String))
  token : Option String
deriving DecidableEq, Repr

/-- Result of the external `parseRepoUrl` collaborator: the `owner` and
`repo` components it extracts from `repoUrl` (either may be absent or
empty; only `owner` is checked by the handler). -/
structure ParsedRepo where
  owner : Option String
  repo : Option String
deriving DecidableEq, Repr

/-- JavaScript falsiness of the destructured `owner` string, as tested by
`if (!owner)`: true exactly when `owner` is `undefined` or the empty
string. -/
def ownerFalsy : Option String → Bool
  | none => true
  | some s => s = ""

/-- An error surfaced by the remote dispatch call (after any throttle
retries): an exhausted rate-limit error, a provider HTTP error such as a
404 or 401/403, or a transport failure. -/
inductive RemoteError where
  | rateLimit (msg : String)
  | http (status : Nat) (msg : String)
  | transport (msg : String)
deriving DecidableEq, Repr

/-- Outcome of one network attempt of the dispatch call, as seen by the
throttling layer: success, a primary rate-limit response (with the
provider-suggested wait and the underlying error), a secondary
rate-limit response (whose suggested wait may be absent), or a
non-rate-limit failure. -/
inductive AttemptOutcome where
  | success
  | rateLimitPrimary (retryAfter : Nat) (err : RemoteError)
  | rateLimitSecondary (retryAfter : Option Nat) (err : RemoteError)
  | failure (err : RemoteError)
deriving DecidableEq, Repr

/-- The `onRateLimit` predicate of the throttle configuration:
`(_, opts) => opts.request.retryCount < 4`. -/
def onRateLimit (_retryAfter : Nat) (retryCount : Nat) : Bool :=
  retryCount < 4

/-- The `onSecondaryRateLimit` predicate of the throttle configuration:
`(_, opts) => opts.request.retryCount < 4`. -/
def onSecondaryRateLimit (_retryAfter : Nat) (retryCount : Nat) : Bool :=
  retryCount < 4

/-- The `fallbackSecondaryRateRetryAfter: 5` option of the throttle
configuration. -/
def fallbackSecondaryRateRetryAfter : Nat := 5

/-- The wait passed to the secondary rate-limit predicate: the
provider-suggested wait when present, otherwise the configured
`fallbackSecondaryRateRetryAfter`. -/
def secondaryRetryWait (suggested : Option Nat) : Nat :=
  suggested.getD fallbackSecondaryRateRetryAfter

/-- Modelled from the spec: the retry loop of the external
`@octokit/plugin-throttling` transport (not part of this repository's
source).  Per the spec's throttle-policy semantics, on either rate-limit
signal the configured predicate inspects the attempt's retry count and a
retry is performed exactly when it returns true; otherwise, or on a
non-rate-limit failure, the underlying error propagates.  The `oracle`
gives the outcome of the attempt with a given retry count (the first
attempt has retry count 0). -/
def runThrottled (oracle : Nat → AttemptOutcome) (retryCount : Nat) :
    Except RemoteError Unit :=
  match oracle retryCount with
  | .success => .ok ()
  | .failure e => .error e
  | .rateLimitPrimary ra e =>
      if h : onRateLimit ra retryCount then
        runThrottled oracle (retryCount + 1)
      else
        .error e
  | .rateLimitSecondary ra e =>
      if h : onSecondaryRateLimit (secondaryRetryWait ra) retryCount then
        runThrottled oracle (retryCount + 1)
      else
        .error e
termination_by 5 - retryCount
decreasing_by
  all_goals
    simp only [onRateLimit, onSecondaryRateLimit, decide_eq_true_eq] at h
    omega

/-- An observable event of one handler invocation, in order of
occurrence: an informational log entry, the call to the external
`getOctokitOptions` resolver with its exact arguments, the construction
of the throttled Octokit client, and the dispatch call with its exact
payload. -/
inductive Event where
  | logInfo (msg : String)
  | getOptions (integrations : ScmIntegrations) (repoUrl : String)
      (credentialsProvider : Option GithubCredentialsProvider)
      (token : Option String)
  | clientConstructed
  | dispatch (owner : String) (repo : Option String) (workflow_id : String)
      (ref : String) (inputs : Option (List (String × String)))
deriving DecidableEq, Repr

/-- The handler's failure modes: the `InputError` thrown for a falsy
owner, or an error propagated unmodified from the remote dispatch call. -/
inductive HandlerError where
  | inputError (msg : String)
  | remote (e : RemoteError)
deriving DecidableEq, Repr

/-- The first informational log message of the handler. -/
def dispatchingMsg (input : HandlerInput) : String :=
  "Dispatching workflow " ++ input.workflowId ++ " for repo " ++
    input.repoUrl ++ " on " ++ input.branchOrTagName

/-- The success log message of the handler. -/
def successMsg (input : HandlerInput) : String :=
  "Workflow " ++ input.workflowId ++ " dispatched successfully"

/-- The `InputError` message thrown for a falsy owner. -/
def invalidOwnerMsg : String := "Invalid repository owner provided in repoUrl"

/-- The handler of the action, translated step by step from the source:
log the dispatching message, parse the repo URL, throw `InputError` when
the owner is falsy, resolve the Octokit options, construct the throttled
client, issue the dispatch call (retried by the throttle layer per the
oracle), and on success log the success message.  `parse` is the
external `parseRepoUrl` collaborator and `oracle` describes the network.
Returns the event trace and the handler's result. -/
def handler (opts : ActionOptions) (parse : String → ParsedRepo)
    (oracle : Nat → AttemptOutcome) (input : HandlerInput) :
    List Event × Except HandlerError Unit :=
  let log1 := Event.logInfo (dispatchingMsg input)
  let parsed := parse input.repoUrl
  if ownerFalsy parsed.owner then
    ([log1], .error (.inputError invalidOwnerMsg))
  else
    let owner := parsed.owner.getD ""
    let evOpts := Event.getOptions opts.integrations input.repoUrl
      opts.githubCredentialsProvider input.token
    let evDispatch := Event.dispatch owner parsed.repo input.workflowId
      input.branchOrTagName input.workflowInputs
    match runThrottled oracle 0 with
    | .ok () =>
        ([log1, evOpts, .clientConstructed, evDispatch,
          Event.logInfo (successMsg input)], .ok ())
    | .error e =>
        ([log1, evOpts, .clientConstructed, evDispatch],
          .error (.remote e))

/-- The informational log messages of a trace, in order. -/
def logsOf (trace : List Event) : List String :=
  trace.filterMap fun e =>
    match e with
    | .logInfo m => some m
    | _ => none

/-- Whether an event is a network-related event: the option resolution,
the client construction, or the dispatch call. -/
def isNetworkEvent : Event → Bool
  | .logInfo _ => false
  | .getOptions _ _ _ _ => true
  | .clientConstructed => true
  | .dispatch _ _ _ _ _ => true

/-- The dispatch calls of a trace, with their payloads
`(owner, repo, workflow_id, ref, inputs)`. -/
def dispatchCalls (trace : List Event) :
    List (String × Option String × String × String ×
      Option (List (String × String))) :=
  trace.filterMap fun e =>
    match e with
    | .dispatch o r w rf i => some (o, r, w, rf, i)
    | _ => none

/-- The `getOctokitOptions` invocations of a trace, with their arguments
`(integrations, repoUrl, credentialsProvider, token)`. -/
def optionResolutions (trace : List Event) :
    List (ScmIntegrations × String × Option GithubCredentialsProvider ×
      Option String) :=
  trace.filterMap fun e =>
    match e with
    | .getOptions i r c t => some (i, r, c, t)
    | _ => none

/-- The two informational messages of one invocation always differ: the
first starts with the letter D, the second with W. -/
lemma dispatchingMsg_ne_successMsg (input : HandlerInput) :
    dispatchingMsg input ≠ successMsg input := by
  simp only [dispatchingMsg, successMsg]
  intro h
  have h2 := congrArg (fun s => s.data.head?) h
  simp [String.data_append] at h2

/-- Claim C1: when the parsed owner is absent or empty, the handler fails
with the InputError and its trace contains no network event — the option
resolver is never called, the client is never constructed and the dispatch
endpoint is never invoked. -/
theorem c1_invalid_owner_fails_without_network
    (opts : ActionOptions) (parse : String → ParsedRepo)
    (oracle : Nat → AttemptOutcome) (input : HandlerInput)
    (hOwner : ownerFalsy (parse input.repoUrl).owner = true) :
    (handler opts parse oracle input).2 =
      .error (.inputError invalidOwnerMsg) ∧
    ∀ e ∈ (handler opts parse oracle input).1, isNetworkEvent e = false := by
  simp [handler, hOwner, isNetworkEvent]

/-- Witness for C1 at a repoUrl parsing to an absent owner. -/
theorem c1_invalid_owner_fails_without_network_witness :
    ownerFalsy (((fun _ => ParsedRepo.mk none (some "demo"))
        "github.com?repo=demo").owner) = true ∧
    ((handler ⟨⟨0⟩, none⟩ (fun _ => ParsedRepo.mk none (some "demo"))
        (fun _ => .success)
        ⟨"github.com?repo=demo", "ci.yml", "main", none, none⟩).2 =
      .error (.inputError invalidOwnerMsg) ∧
     ∀ e ∈ (handler ⟨⟨0⟩, none⟩ (fun _ => ParsedRepo.mk none (some "demo"))
        (fun _ => .success)
        ⟨"github.com?repo=demo", "ci.yml", "main", none, none⟩).1,
       isNetworkEvent e = false) :=
  ⟨by decide,
   c1_invalid_owner_fails_without_network _ _ _ _ (by decide)⟩

/-- Claim C2: for every valid input — the parsed owner is a non-empty
string — the trace contains exactly one dispatch call, whose payload takes
owner and repo from the parsed repoUrl, workflow_id from the provided
workflowId, ref from branchOrTagName, and inputs from workflowInputs
(absent when workflowInputs is not provided). -/
theorem c2_dispatch_payload_matches_input
    (opts : ActionOptions) (parse : String → ParsedRepo)
    (oracle : Nat → AttemptOutcome) (input : HandlerInput) (o : String)
    (hOwner : (parse input.repoUrl).owner = some o) (hNe : o ≠ "") :
    dispatchCalls (handler opts parse oracle input).1 =
      [(o, (parse input.repoUrl).repo, input.workflowId,
        input.branchOrTagName, input.workflowInputs)] := by
  have hf : ownerFalsy (parse input.repoUrl).owner = false := by
    simp [ownerFalsy, hOwner, hNe]
  cases hrun : runThrottled oracle 0 with
  | ok u =>
      cases u
      simp [handler, hf, hrun, dispatchCalls, hOwner, ownerFalsy, hNe]
  | error e =>
      simp [handler, hf, hrun, dispatchCalls, hOwner, ownerFalsy, hNe]

/-- Witness for C2 at a repoUrl parsing to owner acme and repo demo. -/
theorem c2_dispatch_payload_matches_input_witness :
    ((fun _ => ParsedRepo.mk (some "acme") (some "demo"))
        "github.com?repo=demo&owner=acme").owner = some "acme" ∧
    "acme" ≠ "" ∧
    dispatchCalls (handler ⟨⟨0⟩, none⟩
        (fun _ => ParsedRepo.mk (some "acme") (some "demo"))
        (fun _ => .success)
        ⟨"github.com?repo=demo&owner=acme", "ci.yml", "main", none, none⟩).1 =
      [("acme", some "demo", "ci.yml", "main", none)] :=
  ⟨by decide, by decide,
   c2_dispatch_payload_matches_input _ _ _ _ "acme" (by decide) (by decide)⟩

/-- Claim C7: when a secondary rate-limit response carries no
provider-suggested wait, the wait used by the throttle policy is the
configured fallback of 5 seconds. -/
theorem c7_secondary_fallback_wait :
    secondaryRetryWait none = 5 ∧ fallbackSecondaryRateRetryAfter = 5 :=
  ⟨rfl, rfl⟩

/-- Claim C8: even when the parsed owner is falsy, the dispatching log is
emitted, exactly once, before the InputError is thrown: the logs of the
invocation are exactly the dispatching message and the result is the
InputError. -/
theorem c8_dispatching_log_emitted_before_input_error
    (opts : ActionOptions) (parse : String → ParsedRepo)
    (oracle : Nat → AttemptOutcome) (input : HandlerInput)
    (hOwner : ownerFalsy (parse input.repoUrl).owner = true) :
    logsOf (handler opts parse oracle input).1 = [dispatchingMsg input] ∧
    (handler opts parse oracle input).2 =
      .error (.inputError invalidOwnerMsg) := by
  simp [handler, hOwner, logsOf]

/-- Witness for C8 at a repoUrl parsing to an empty owner. -/
theorem c8_dispatching_log_emitted_before_input_error_witness :
    ownerFalsy (((fun _ => ParsedRepo.mk (some "") (some "demo"))
        "github.com?repo=demo&owner=").owner) = true ∧
    (logsOf (handler ⟨⟨1⟩, some ⟨2⟩⟩
        (fun _ => ParsedRepo.mk (some "") (some "demo"))
        (fun _ => .success)
        ⟨"github.com?repo=demo&owner=", "ci.yml", "main", none, none⟩).1 =
      [dispatchingMsg ⟨"github.com?repo=demo&owner=", "ci.yml", "main",
        none, none⟩] ∧
     (handler ⟨⟨1⟩, some ⟨2⟩⟩
        (fun _ => ParsedRepo.mk (some "") (some "demo"))
        (fun _ => .success)
        ⟨"github.com?repo=demo&owner=", "ci.yml", "main", none, none⟩).2 =
      .error (.inputError invalidOwnerMsg)) :=
  ⟨by decide,
   c8_dispatching_log_emitted_before_input_error _ _ _ _ (by decide)⟩

/-- Claim C9: only the owner component is validated — with a non-empty
parsed owner and an absent or empty parsed repo, the handler never fails
with an InputError and issues the dispatch call with that absent or empty
repo value. -/
theorem c9_repo_component_not_validated
    (opts : ActionOptions) (parse : String → ParsedRepo)
    (oracle : Nat → AttemptOutcome) (input : HandlerInput) (o : String)
    (hOwner : (parse input.repoUrl).owner = some o) (hNe : o ≠ "")
    (hRepo : (parse input.repoUrl).repo = none ∨
      (parse input.repoUrl).repo = some "") :
    (∀ m, (handler opts parse oracle input).2 ≠ .error (.inputError m)) ∧
    dispatchCalls (handler opts parse oracle input).1 =
      [(o, (parse input.repoUrl).repo, input.workflowId,
        input.branchOrTagName, input.workflowInputs)] := by
  have hf : ownerFalsy (parse input.repoUrl).owner = false := by
    simp [ownerFalsy, hOwner, hNe]
  cases hrun : runThrottled oracle 0 with
  | ok u =>
      cases u
      simp [handler, hf, hrun, dispatchCalls, hOwner, ownerFalsy, hNe]
  | error e =>
      simp [handler, hf, hrun, dispatchCalls, hOwner, ownerFalsy, hNe]

/-- Witness for C9 at a repoUrl parsing to owner acme and an absent repo. -/
theorem c9_repo_component_not_validated_witness :
    ((fun _ => ParsedRepo.mk (some "acme") none)
        "github.com?owner=acme").owner = some "acme" ∧
    "acme" ≠ "" ∧
    (((fun _ => ParsedRepo.mk (some "acme") none)
        "github.com?owner=acme" : ParsedRepo).repo = none ∨
     ((fun _ => ParsedRepo.mk (some "acme") none)
        "github.com?owner=acme" : ParsedRepo).repo = some "") ∧
    ((∀ m, (handler ⟨⟨0⟩, none⟩ (fun _ => ParsedRepo.mk (some "acme") none)
        (fun _ => .success)
        ⟨"github.com?owner=acme", "ci.yml", "main", none, none⟩).2 ≠
      .error (.inputError m)) ∧
     dispatchCalls (handler ⟨⟨0⟩, none⟩
        (fun _ => ParsedRepo.mk (some "acme") none)
        (fun _ => .success)
        ⟨"github.com?owner=acme", "ci.yml", "main", none, none⟩).1 =
      [("acme", none, "ci.yml", "main", none)]) :=
  ⟨by decide, by decide, by left; decide,
   c9_repo_component_not_validated _ _ _ _ "acme" (by decide) (by decide)
     (by left; decide)⟩

/-- Claim C3: either throttle predicate permits a retry exactly when the
retry count is below 4; consequently, for a valid input, an invocation
rate-limited (primary or secondary) on attempts 1 to 4 — retry counts 0 to
3 — that succeeds on attempt 5 completes successfully with the success log
emitted exactly once, while an invocation rate-limited on all five attempts
fails. -/
theorem c3_throttle_retry_policy
    (opts : ActionOptions) (parse : String → ParsedRepo)
    (input : HandlerInput) (err : RemoteError)
    (hOwner : ownerFalsy (parse input.repoUrl).owner = false) :
    (∀ ra n, onRateLimit ra n = true ↔ n < 4) ∧
    (∀ ra n, onSecondaryRateLimit ra n = true ↔ n < 4) ∧
    (handler opts parse
      (fun n => if n < 4 then .rateLimitPrimary 1 err else .success)
      input).2 = .ok () ∧
    (handler opts parse
      (fun n => if n < 4 then .rateLimitSecondary none err else .success)
      input).2 = .ok () ∧
    (logsOf (handler opts parse
      (fun n => if n < 4 then .rateLimitPrimary 1 err else .success)
      input).1).count (successMsg input) = 1 ∧
    (handler opts parse (fun _ => .rateLimitPrimary 1 err) input).2 =
      .error (.remote err) := by
  have h4 : runThrottled
      (fun n => if n < 4 then AttemptOutcome.rateLimitPrimary 1 err
        else .success) 0 = .ok () := by
    simp [runThrottled, onRateLimit]
  have h4s : runThrottled
      (fun n => if n < 4 then AttemptOutcome.rateLimitSecondary none err
        else .success) 0 = .ok () := by
    simp [runThrottled, onSecondaryRateLimit]
  have hall : runThrottled
      (fun _ => AttemptOutcome.rateLimitPrimary 1 err) 0 = .error err := by
    simp [runThrottled, onRateLimit]
  refine ⟨fun ra n => by simp [onRateLimit],
    fun ra n => by simp [onSecondaryRateLimit], ?_, ?_, ?_, ?_⟩
  · simp [handler, hOwner, h4]
  · simp [handler, hOwner, h4s]
  · simp [handler, hOwner, h4, logsOf, List.count_cons,
      dispatchingMsg_ne_successMsg input]
  · simp [handler, hOwner, hall]

/-- Witness for C3 at a valid concrete input. -/
theorem c3_throttle_retry_policy_witness :
    ownerFalsy (((fun _ => ParsedRepo.mk (some "acme") (some "demo"))
        "github.com?repo=demo&owner=acme").owner) = false ∧
    ((∀ ra n, onRateLimit ra n = true ↔ n < 4) ∧
     (∀ ra n, onSecondaryRateLimit ra n = true ↔ n < 4) ∧
     (handler ⟨⟨0⟩, none⟩ (fun _ => ParsedRepo.mk (some "acme") (some "demo"))
       (fun n => if n < 4
         then .rateLimitPrimary 1 (.rateLimit "rate limit exceeded")
         else .success)
       ⟨"github.com?repo=demo&owner=acme", "ci.yml", "main",
         none, none⟩).2 = .ok () ∧
     (handler ⟨⟨0⟩, none⟩ (fun _ => ParsedRepo.mk (some "acme") (some "demo"))
       (fun n => if n < 4
         then .rateLimitSecondary none (.rateLimit "rate limit exceeded")
         else .success)
       ⟨"github.com?repo=demo&owner=acme", "ci.yml", "main",
         none, none⟩).2 = .ok () ∧
     (logsOf (handler ⟨⟨0⟩, none⟩
       (fun _ => ParsedRepo.mk (some "acme") (some "demo"))
       (fun n => if n < 4
         then .rateLimitPrimary 1 (.rateLimit "rate limit exceeded")
         else .success)
       ⟨"github.com?repo=demo&owner=acme", "ci.yml", "main",
         none, none⟩).1).count
       (successMsg ⟨"github.com?repo=demo&owner=acme", "ci.yml", "main",
         none, none⟩) = 1 ∧
     (handler ⟨⟨0⟩, none⟩ (fun _ => ParsedRepo.mk (some "acme") (some "demo"))
       (fun _ => .rateLimitPrimary 1 (.rateLimit "rate limit exceeded"))
       ⟨"github.com?repo=demo&owner=acme", "ci.yml", "main",
         none, none⟩).2 =
       .error (.remote (.rateLimit "rate limit exceeded"))) :=
  ⟨by decide, c3_throttle_retry_policy _ _ _ _ (by decide)⟩

/-- Claim C4: any error the throttle retries do not recover from is
propagated by the handler unmodified — the handler's result carries exactly
that error — and the success log is not emitted. -/
theorem c4_unrecovered_error_propagated_unmodified
    (opts : ActionOptions) (parse : String → ParsedRepo)
    (oracle : Nat → AttemptOutcome) (input : HandlerInput) (e : RemoteError)
    (hOwner : ownerFalsy (parse input.repoUrl).owner = false)
    (hRun : runThrottled oracle 0 = .error e) :
    (handler opts parse oracle input).2 = .error (.remote e) ∧
    successMsg input ∉ logsOf (handler opts parse oracle input).1 := by
  constructor
  · simp [handler, hOwner, hRun]
  · simp [handler, hOwner, hRun, logsOf]
    exact fun h => dispatchingMsg_ne_successMsg input h.symm

/-- Witness for C4 at a 404 failure of the dispatch call. -/
theorem c4_unrecovered_error_propagated_unmodified_witness :
    ownerFalsy (((fun _ => ParsedRepo.mk (some "acme") (some "demo"))
        "github.com?repo=demo&owner=acme").owner) = false ∧
    runThrottled (fun _ => AttemptOutcome.failure (.http 404 "Not Found"))
      0 = .error (.http 404 "Not Found") ∧
    ((handler ⟨⟨0⟩, none⟩ (fun _ => ParsedRepo.mk (some "acme") (some "demo"))
        (fun _ => AttemptOutcome.failure (.http 404 "Not Found"))
        ⟨"github.com?repo=demo&owner=acme", "ci.yml", "main",
          none, none⟩).2 = .error (.remote (.http 404 "Not Found")) ∧
     successMsg ⟨"github.com?repo=demo&owner=acme", "ci.yml", "main",
       none, none⟩ ∉
       logsOf (handler ⟨⟨0⟩, none⟩
         (fun _ => ParsedRepo.mk (some "acme") (some "demo"))
         (fun _ => AttemptOutcome.failure (.http 404 "Not Found"))
         ⟨"github.com?repo=demo&owner=acme", "ci.yml", "main",
           none, none⟩).1) :=
  ⟨by decide, by simp [runThrottled],
   c4_unrecovered_error_propagated_unmodified _ _ _ _ _ (by decide)
     (by simp [runThrottled])⟩

/-- Claim C5: within a successful invocation the trace is exactly the
dispatching log, the option resolution, the client construction, the
dispatch call and the success log, in that order — so the dispatching log
precedes the network attempt and the success log follows it, each appearing
once — and at the concrete example input the log messages are exactly the
two quoted strings in that order. -/
theorem c5_success_log_ordering
    (opts : ActionOptions) (parse : String → ParsedRepo)
    (oracle : Nat → AttemptOutcome) (input : HandlerInput)
    (hOwner : ownerFalsy (parse input.repoUrl).owner = false)
    (hRun : runThrottled oracle 0 = .ok ()) :
    (handler opts parse oracle input).1 =
      [.logInfo (dispatchingMsg input),
       .getOptions opts.integrations input.repoUrl
         opts.githubCredentialsProvider input.token,
       .clientConstructed,
       .dispatch ((parse input.repoUrl).owner.getD "")
         (parse input.repoUrl).repo input.workflowId
         input.branchOrTagName input.workflowInputs,
       .logInfo (successMsg input)] ∧
    logsOf (handler opts parse oracle input).1 =
      [dispatchingMsg input, successMsg input] ∧
    logsOf (handler ⟨⟨0⟩, none⟩
        (fun _ => ParsedRepo.mk (some "acme") (some "demo"))
        (fun _ => .success)
        ⟨"github.com?repo=demo&owner=acme", "ci.yml", "main",
          none, none⟩).1 =
      ["Dispatching workflow ci.yml for repo github.com?repo=demo&owner=acme on main",
       "Workflow ci.yml dispatched successfully"] := by
  have hs : runThrottled (fun _ => AttemptOutcome.success) 0 = .ok () := by
    simp [runThrottled]
  refine ⟨?_, ?_, ?_⟩
  · simp [handler, hOwner, hRun]
  · simp [handler, hOwner, hRun, logsOf]
  · simp [handler, hs, logsOf, ownerFalsy, dispatchingMsg, successMsg]

/-- Witness for C5 at the concrete example input. -/
theorem c5_success_log_ordering_witness :
    ownerFalsy (((fun _ => ParsedRepo.mk (some "acme") (some "demo"))
        "github.com?repo=demo&owner=acme").owner) = false ∧
    runThrottled (fun _ => AttemptOutcome.success) 0 = .ok () ∧
    logsOf (handler ⟨⟨0⟩, none⟩
        (fun _ => ParsedRepo.mk (some "acme") (some "demo"))
        (fun _ => .success)
        ⟨"github.com?repo=demo&owner=acme", "ci.yml", "main",
          none, none⟩).1 =
      ["Dispatching workflow ci.yml for repo github.com?repo=demo&owner=acme on main",
       "Workflow ci.yml dispatched successfully"] :=
  ⟨by decide, by simp [runThrottled],
   (c5_success_log_ordering ⟨⟨0⟩, none⟩
     (fun _ => ParsedRepo.mk (some "acme") (some "demo"))
     (fun _ => .success)
     ⟨"github.com?repo=demo&owner=acme", "ci.yml", "main", none, none⟩
     (by decide) (by simp [runThrottled])).2.2⟩

/-- Claim C6: when an explicit token is supplied and the request is valid,
the option resolution is invoked exactly once, with exactly the configured
integrations, the input repoUrl, the configured credentials provider, and
the provided token. -/
theorem c6_explicit_token_passed_to_option_resolution
    (opts : ActionOptions) (parse : String → ParsedRepo)
    (oracle : Nat → AttemptOutcome) (input : HandlerInput) (t : String)
    (hOwner : ownerFalsy (parse input.repoUrl).owner = false)
    (hTok : input.token = some t) :
    optionResolutions (handler opts parse oracle input).1 =
      [(opts.integrations, input.repoUrl, opts.githubCredentialsProvider,
        some t)] := by
  cases hrun : runThrottled oracle 0 with
  | ok u =>
      cases u
      simp [handler, hOwner, hrun, optionResolutions, hTok]
  | error e =>
      simp [handler, hOwner, hrun, optionResolutions, hTok]

/-- Witness for C6 at an input carrying an explicit token. -/
theorem c6_explicit_token_passed_to_option_resolution_witness :
    ownerFalsy (((fun _ => ParsedRepo.mk (some "acme") (some "demo"))
        "github.com?repo=demo&owner=acme").owner) = false ∧
    (HandlerInput.mk "github.com?repo=demo&owner=acme" "ci.yml" "main"
        none (some "tok123")).token = some "tok123" ∧
    optionResolutions (handler ⟨⟨7⟩, some ⟨8⟩⟩
        (fun _ => ParsedRepo.mk (some "acme") (some "demo"))
        (fun _ => .success)
        ⟨"github.com?repo=demo&owner=acme", "ci.yml", "main",
          none, some "tok123"⟩).1 =
      [(⟨7⟩, "github.com?repo=demo&owner=acme", some ⟨8⟩,
        some "tok123")] :=
  ⟨by decide, by decide,
   c6_explicit_token_passed_to_option_resolution _ _ _ _ "tok123"
     (by decide) (by decide)⟩

/-- Claim C10: both retry predicates are pure functions of the retry count
alone — each is insensitive to the wait-time argument — and the primary and
secondary predicates agree at every retry count. -/
theorem c10_retry_predicates_pure_and_identical (ra rb n : Nat) :
    onRateLimit ra n = onRateLimit rb n ∧
    onSecondaryRateLimit ra n = onSecondaryRateLimit rb n ∧
    onRateLimit ra n = onSecondaryRateLimit ra n :=
  ⟨rfl, rfl, rfl⟩

end GithubActionsDispatch
